import Mathlib

/-!
Verification of the low-level inotify wrapper module (src/inotify/_inotify.c,
with the older single-function variant in src/unnamed/part_000).

The module is a thin CPython extension over three Linux syscalls:
inotify_init, inotify_add_watch and inotify_rm_watch.  We embed

* the mask vocabulary: the numeric flag constants re-exported by
  define_consts, with the fixed bit values of the Linux inotify ABI
  (the values of sys/inotify.h);
* a kernel model: instances keyed by file descriptor, each owning a
  watch table (watch descriptor, path, effective mask).  The watch-table
  semantics (replace vs. union of masks, errno selection) is performed by
  the kernel, not by code under src/, so it is modelled from the spec;
* the three wrapper functions, translated control-path by control-path
  from the C source, including argument parsing, errno-to-exception
  translation, and the goto-based cleanup on the bail paths.

A wrapper call returns a PyResult: the returned object (none models a C
NULL return), the exception state, the final kernel state, and a trace of
the cleanup syscalls and reference-count effects the call performed.
-/

set_option autoImplicit false

namespace Inotify

/-! ## Mask vocabulary

Bit values of the Linux inotify ABI (sys/inotify.h), re-exported by
define_consts in src/inotify/_inotify.c.  Each single-event flag is one
bit; the aggregates IN_CLOSE, IN_MOVE and IN_ALL_EVENTS carry the fixed
ABI values 0x18, 0xc0 and 0xfff. -/

def IN_ACCESS : Nat := 0x00000001

def IN_MODIFY : Nat := 0x00000002

def IN_ATTRIB : Nat := 0x00000004

def IN_CLOSE_WRITE : Nat := 0x00000008

def IN_CLOSE_NOWRITE : Nat := 0x00000010

def IN_OPEN : Nat := 0x00000020

def IN_MOVED_FROM : Nat := 0x00000040

def IN_MOVED_TO : Nat := 0x00000080

def IN_CREATE : Nat := 0x00000100

def IN_DELETE : Nat := 0x00000200

def IN_DELETE_SELF : Nat := 0x00000400

def IN_MOVE_SELF : Nat := 0x00000800

def IN_UNMOUNT : Nat := 0x00002000

def IN_Q_OVERFLOW : Nat := 0x00004000

def IN_IGNORED : Nat := 0x00008000

def IN_CLOSE : Nat := 0x00000018

def IN_MOVE : Nat := 0x000000c0

def IN_ONLYDIR : Nat := 0x01000000

def IN_DONT_FOLLOW : Nat := 0x02000000

def IN_MASK_ADD : Nat := 0x20000000

def IN_ISDIR : Nat := 0x40000000

def IN_ONESHOT : Nat := 0x80000000

def IN_ALL_EVENTS : Nat := 0x00000fff

/-- The twelve requestable single-event flags, in the order define_consts
exports them. -/
def requestableFlags : List Nat :=
  [IN_ACCESS, IN_MODIFY, IN_ATTRIB, IN_CLOSE_WRITE, IN_CLOSE_NOWRITE,
   IN_OPEN, IN_MOVED_FROM, IN_MOVED_TO, IN_CREATE, IN_DELETE,
   IN_DELETE_SELF, IN_MOVE_SELF]

/-- The name-to-value table built by define_consts (all the sys/inotify.h
flags are available on Linux, so every #ifdef block runs; IN_CLOSE and
IN_MOVE are defined twice in the C source and are listed twice here). -/
def constTable : List (String × Nat) :=
  [("IN_ACCESS", IN_ACCESS), ("IN_MODIFY", IN_MODIFY),
   ("IN_ATTRIB", IN_ATTRIB), ("IN_CLOSE_WRITE", IN_CLOSE_WRITE),
   ("IN_CLOSE_NOWRITE", IN_CLOSE_NOWRITE), ("IN_CLOSE", IN_CLOSE),
   ("IN_OPEN", IN_OPEN), ("IN_MOVED_FROM", IN_MOVED_FROM),
   ("IN_MOVED_TO", IN_MOVED_TO), ("IN_MOVE", IN_MOVE),
   ("IN_CREATE", IN_CREATE), ("IN_DELETE", IN_DELETE),
   ("IN_DELETE_SELF", IN_DELETE_SELF), ("IN_MOVE_SELF", IN_MOVE_SELF),
   ("IN_UNMOUNT", IN_UNMOUNT), ("IN_Q_OVERFLOW", IN_Q_OVERFLOW),
   ("IN_IGNORED", IN_IGNORED), ("IN_CLOSE", IN_CLOSE),
   ("IN_MOVE", IN_MOVE), ("IN_ONLYDIR", IN_ONLYDIR),
   ("IN_DONT_FOLLOW", IN_DONT_FOLLOW), ("IN_MASK_ADD", IN_MASK_ADD),
   ("IN_ISDIR", IN_ISDIR), ("IN_ONESHOT", IN_ONESHOT),
   ("IN_ALL_EVENTS", IN_ALL_EVENTS)]

/-- The method table of the module (the methods array in
src/inotify/_inotify.c, lines 127-132): the names the module exports. -/
def methodNames : List String := ["init", "add_watch", "remove_watch"]

/-! ## Errno values and the error taxonomy -/

def ENOENT : Nat := 2

def EBADF : Nat := 9

def ENOMEM : Nat := 12

def EACCES : Nat := 13

def EINVAL : Nat := 22

def ENFILE : Nat := 23

def EMFILE : Nat := 24

def ENOSPC : Nat := 28

/-- The abstract error taxonomy of the spec. -/
inductive ErrKind where
  | resource
  | notFound
  | permission
  | invalidArgument
  | other
deriving Repr, DecidableEq

/-- Modelled from the spec: classification of a numeric syscall error code
into the taxonomy of the spec (ResourceError for kernel resource
exhaustion, NotFoundError for a missing path, PermissionError for
insufficient rights, InvalidArgumentError for a malformed argument).
The C source carries only the raw errno inside an OSError; this mapping
is the reading the spec gives those codes. -/
def errnoKind (e : Nat) : ErrKind :=
  if e = EMFILE ∨ e = ENFILE ∨ e = ENOMEM ∨ e = ENOSPC then .resource
  else if e = ENOENT then .notFound
  else if e = EACCES then .permission
  else if e = EINVAL then .invalidArgument
  else .other

/-! ## Kernel model

Modelled from the spec: the per-instance watch table (spec sections 2, 3
and 4.2) is maintained by the kernel behind the syscalls the C source
calls, so its semantics is not under src/.  Following the spec: a watch
instance owns an event-queue descriptor and a table from watch descriptor
to (path, active mask); registering a path already watched updates the
existing entry, replacing its mask, unless the IN_MASK_ADD modifier is
present in the new mask, in which case the masks are unioned; the stored
effective mask consists of the requestable event bits (registration
modifiers such as IN_MASK_ADD act only at registration time). -/

structure Watch where
  wd : Nat
  path : String
  mask : Nat
deriving Repr, DecidableEq

structure KInstance where
  watches : List Watch
  nextWd : Nat
deriving Repr, DecidableEq

structure KState where
  instances : List (Nat × KInstance)
  nextFd : Nat
deriving Repr, DecidableEq

/-- Environment oracle deciding the outcomes that depend on the operating
system rather than on the kernel state: descriptor exhaustion at
inotify_init time, path existence and permissions, the watch limit, and
failure of PyInt_FromLong to allocate the boxed integer. -/
structure Env where
  initErrno : Option Nat
  pathExists : String → Bool
  pathPermitted : String → Bool
  watchErrno : Option Nat
  boxFails : Bool

def lookupInst (st : KState) (fd : Nat) : Option KInstance :=
  (st.instances.find? (fun p => p.1 = fd)).map (fun p => p.2)

def setInst (st : KState) (fd : Nat) (inst : KInstance) : KState :=
  { st with instances :=
      st.instances.map (fun p => if p.1 = fd then (fd, inst) else p) }

/-- The file descriptors of the open instances. -/
def instFds (st : KState) : List Nat := st.instances.map (fun p => p.1)

/-- The watch table of the instance open at fd ([] when fd is not open). -/
def watchesOf (st : KState) (fd : Nat) : List Watch :=
  match lookupInst st fd with
  | none => []
  | some inst => inst.watches

/-- Syscall inotify_init: allocates a fresh event queue, or fails with the
errno the environment dictates (descriptor exhaustion). -/
def sys_inotify_init (env : Env) (st : KState) : Except Nat Nat × KState :=
  match env.initErrno with
  | some e => (.error e, st)
  | none =>
      (.ok st.nextFd,
       { instances := (st.nextFd, ⟨[], 1⟩) :: st.instances,
         nextFd := st.nextFd + 1 })

/-- Syscall close: releases the descriptor and its instance. -/
def sys_close (fd : Nat) (st : KState) : KState :=
  { st with instances := st.instances.filter (fun p => p.1 ≠ fd) }

/-- Syscall inotify_add_watch.  Modelled from the spec: the kernel rejects
a mask with no requestable event bit (EINVAL, checked before the
descriptor), then an unknown descriptor (EBADF), a missing path (ENOENT),
a path without rights (EACCES); on a path already watched it updates the
existing entry in place, replacing the effective mask or, under
IN_MASK_ADD, unioning it; otherwise it registers a fresh watch, subject to
the watch limit of the environment. -/
def sys_inotify_add_watch (env : Env) (st : KState) (fd : Int)
    (path : String) (mask : Nat) : Except Nat Nat × KState :=
  if mask &&& IN_ALL_EVENTS = 0 then (.error EINVAL, st)
  else if fd < 0 then (.error EBADF, st)
  else
    match lookupInst st fd.toNat with
    | none => (.error EBADF, st)
    | some inst =>
        if env.pathExists path = false then (.error ENOENT, st)
        else if env.pathPermitted path = false then (.error EACCES, st)
        else
          match inst.watches.find? (fun w => w.path = path) with
          | some w =>
              let newMask :=
                if mask &&& IN_MASK_ADD ≠ 0 then
                  w.mask ||| (mask &&& IN_ALL_EVENTS)
                else mask &&& IN_ALL_EVENTS
              let inst2 : KInstance :=
                { inst with watches :=
                    inst.watches.map (fun x =>
                      if x.wd = w.wd then { x with mask := newMask } else x) }
              (.ok w.wd, setInst st fd.toNat inst2)
          | none =>
              match env.watchErrno with
              | some e => (.error e, st)
              | none =>
                  let inst2 : KInstance :=
                    { watches := ⟨inst.nextWd, path, mask &&& IN_ALL_EVENTS⟩
                        :: inst.watches,
                      nextWd := inst.nextWd + 1 }
                  (.ok inst.nextWd, setInst st fd.toNat inst2)

/-- Syscall inotify_rm_watch: EBADF for an unknown descriptor, EINVAL for
a watch descriptor not registered on the instance (the errno the kernel
uses for an unknown wd), otherwise removes the watch. -/
def sys_inotify_rm_watch (st : KState) (fd : Int) (wd : Nat) :
    Except Nat Unit × KState :=
  if fd < 0 then (.error EBADF, st)
  else
    match lookupInst st fd.toNat with
    | none => (.error EBADF, st)
    | some inst =>
        match inst.watches.find? (fun w => w.wd = wd) with
        | none => (.error EINVAL, st)
        | some _ =>
            let inst2 : KInstance :=
              { inst with watches := inst.watches.filter (fun w => w.wd ≠ wd) }
            (.ok (), setInst st fd.toNat inst2)

/-! ## The CPython wrapper layer -/

/-- A Python object produced or consumed by the wrappers. -/
inductive PyValue where
  | int (n : Int)
  | str (s : String)
  | noneObj
deriving Repr, DecidableEq

/-- The exception state a wrapper can leave behind: the TypeError of a
failed PyArg_ParseTuple, an OSError carrying the errno of the syscall and
the optional filename context (PyErr_SetFromErrnoWithFilename attaches the
path, PyErr_SetFromErrno attaches nothing), or the MemoryError of a failed
PyInt_FromLong. -/
inductive PyErr where
  | typeError
  | osError (errno : Nat) (filename : Option String)
  | memError
deriving Repr, DecidableEq

/-- Observable side calls of one wrapper invocation: descriptors passed to
close on a bail path, (fd, wd) pairs passed to inotify_rm_watch, the
invocations of inotify_add_watch with the exact arguments handed to the
kernel, and how many references to Py_None were taken and never returned
or released. -/
structure Trace where
  closes : List Nat
  rmCalls : List (Int × Nat)
  addCalls : List (Int × String × Nat)
  increfsNone : Nat
deriving Repr, DecidableEq

def Trace.nil : Trace := ⟨[], [], [], 0⟩

/-- Outcome of one wrapper call: the object returned (none models the C
NULL return), the exception state, the kernel state after the call, and
the trace. -/
structure PyResult where
  val : Option PyValue
  err : Option PyErr
  state : KState
  trace : Trace
deriving Repr, DecidableEq

/-- PyArg_ParseTuple with format ":init": accepts exactly the empty
argument tuple. -/
def parse_init (args : List PyValue) : Option Unit :=
  match args with
  | [] => some ()
  | _ => none

/-- PyArg_ParseTuple with format "isI:add_watch": an int fd, a string
path and an unsigned int mask (the I converter reduces the value modulo
2^32 without an overflow check). -/
def parse_add_watch (args : List PyValue) : Option (Int × String × Nat) :=
  match args with
  | [.int fd, .str path, .int m] => some (fd, path, (m % (2 ^ 32 : Int)).toNat)
  | _ => none

/-- PyArg_ParseTuple with format "iI:remove_watch": an int fd and an
unsigned int wd. -/
def parse_remove_watch (args : List PyValue) : Option (Int × Nat) :=
  match args with
  | [.int fd, .int w] => some (fd, (w % (2 ^ 32 : Int)).toNat)
  | _ => none

/-- The init wrapper (src/inotify/_inotify.c lines 4-32).  Parse the empty
tuple; call inotify_init; on failure raise OSError from errno and bail
(fd is still -1, so no close happens); box the descriptor with
PyInt_FromLong; if boxing fails, bail closes the fresh descriptor;
otherwise return the boxed descriptor. -/
def c_init (env : Env) (st : KState) (args : List PyValue) : PyResult :=
  match parse_init args with
  | none => ⟨none, some .typeError, st, Trace.nil⟩
  | some _ =>
      match sys_inotify_init env st with
      | (.error e, st1) => ⟨none, some (.osError e none), st1, Trace.nil⟩
      | (.ok fd, st1) =>
          if env.boxFails then
            ⟨none, some .memError, sys_close fd st1, ⟨[fd], [], [], 0⟩⟩
          else
            ⟨some (.int fd), none, st1, Trace.nil⟩

/-- The add_watch wrapper (src/inotify/_inotify.c lines 41-72).  Parse
(fd, path, mask); call inotify_add_watch; on failure raise OSError with
the errno and the path (PyErr_SetFromErrnoWithFilename) and bail (wd is
still -1, so no rm happens); box the watch descriptor; if boxing fails,
bail removes the just-registered watch with inotify_rm_watch; otherwise
return the boxed watch descriptor. -/
def c_add_watch (env : Env) (st : KState) (args : List PyValue) : PyResult :=
  match parse_add_watch args with
  | none => ⟨none, some .typeError, st, Trace.nil⟩
  | some (fd, path, mask) =>
      match sys_inotify_add_watch env st fd path mask with
      | (.error e, st1) =>
          ⟨none, some (.osError e (some path)), st1,
           ⟨[], [], [(fd, path, mask)], 0⟩⟩
      | (.ok wd, st1) =>
          if env.boxFails then
            ⟨none, some .memError, (sys_inotify_rm_watch st1 fd wd).2,
             ⟨[], [(fd, wd)], [(fd, path, mask)], 0⟩⟩
          else
            ⟨some (.int wd), none, st1, ⟨[], [], [(fd, path, mask)], 0⟩⟩

/-- The remove_watch wrapper (src/inotify/_inotify.c lines 87-112).  Parse
(fd, wd); call inotify_rm_watch; on failure raise OSError from errno
(PyErr_SetFromErrno: no context attached) and bail; on success the C code
executes Py_INCREF(Py_None) but never assigns Py_None to ret, so the
function falls through to return ret, which is still NULL: the wrapper
returns NULL with no exception set and one reference to Py_None taken and
lost. -/
def c_remove_watch (st : KState) (args : List PyValue) : PyResult :=
  match parse_remove_watch args with
  | none => ⟨none, some .typeError, st, Trace.nil⟩
  | some (fd, wd) =>
      match sys_inotify_rm_watch st fd wd with
      | (.error e, st1) =>
          ⟨none, some (.osError e none), st1, ⟨[], [(fd, wd)], [], 0⟩⟩
      | (.ok _, st1) =>
          ⟨none, none, st1, ⟨[], [(fd, wd)], [], 1⟩⟩


/-! ## Shared concrete sample states for witnesses and counterexamples -/

/-- Benign environment: every syscall and allocation succeeds. -/
def sampleEnv : Env := ⟨none, fun _ => true, fun _ => true, none, false⟩

/-- One open instance at descriptor 3 holding watch 1 on path /a with
mask IN_MODIFY. -/
def sampleSt : KState := ⟨[(3, ⟨[⟨1, "/a", IN_MODIFY⟩], 2⟩)], 4⟩

/-- No open instance at all. -/
def emptySt : KState := ⟨[], 0⟩

/-- Environment in which inotify_init fails with EMFILE (descriptor-table
exhaustion). -/
def exhaustedEnv : Env := ⟨some EMFILE, fun _ => true, fun _ => true, none, false⟩

/-- Environment in which PyInt_FromLong fails (allocation failure while
boxing the returned descriptor). -/
def boxFailEnv : Env := ⟨none, fun _ => true, fun _ => true, none, true⟩

/-- The effective mask stored for watch descriptor wd on the instance at
fd: the mask field of the first matching entry of the watch table. -/
def effMask (st : KState) (fd wd : Nat) : Option Nat :=
  ((watchesOf st fd).find? (fun x => x.wd = wd)).map (fun x => x.mask)

/-! ## Claim theorems: mask algebra -/

/-- C8: every exported aggregate convenience mask equals the bitwise union
of its documented components: IN_CLOSE is the union of the two close
flags, IN_MOVE the union of the two move flags, and IN_ALL_EVENTS the
union of all twelve requestable event-class flags. -/
theorem c8_aggregate_masks :
    IN_CLOSE = IN_CLOSE_WRITE ||| IN_CLOSE_NOWRITE ∧
    IN_MOVE = IN_MOVED_FROM ||| IN_MOVED_TO ∧
    IN_ALL_EVENTS = requestableFlags.foldr (fun a b => a ||| b) 0 := by
  decide

/-- C9: any two distinct flags among the twelve requestable single-event
flags are bitwise-disjoint: their bitwise AND is zero. -/
theorem c9_requestable_flags_disjoint :
    ∀ a ∈ requestableFlags, ∀ b ∈ requestableFlags, a ≠ b → a &&& b = 0 := by
  decide

/-- Witness for C9 at a concrete pair of distinct flags. -/
theorem c9_requestable_flags_disjoint_witness :
    IN_ACCESS ∈ requestableFlags ∧ IN_MODIFY ∈ requestableFlags ∧
    IN_ACCESS ≠ IN_MODIFY ∧ IN_ACCESS &&& IN_MODIFY = 0 :=
  ⟨by decide, by decide, by decide,
   c9_requestable_flags_disjoint IN_ACCESS (by decide) IN_MODIFY (by decide)
     (by decide)⟩

/-! ## Claim theorems: the remove_watch return-value bug -/

/-- C1 (code bug): on a successful deregistration, remove_watch returns
NULL (no object) with no exception set, rather than Py_None: in the C
source, ret is never assigned Py_None, only Py_INCREF(Py_None) runs, so
the function returns the NULL it started with and leaks one reference to
None.  Here, on the sample state whose instance 3 holds watch 1, removing
watch 1 succeeds in the kernel (the watch is gone from the final state)
yet the wrapper returns no value and raises no error. -/
theorem c1_remove_watch_success_returns_null :
    (c_remove_watch sampleSt [.int 3, .int 1]).val = none ∧
    (c_remove_watch sampleSt [.int 3, .int 1]).err = none ∧
    watchesOf (c_remove_watch sampleSt [.int 3, .int 1]).state 3 = [] ∧
    (c_remove_watch sampleSt [.int 3, .int 1]).trace.increfsNone = 1 := by
  decide

/-! ## Claim theorems: instance lifecycle -/

/-- C6: when the kernel cannot allocate the event queue, init raises an
OSError carrying the errno of the failed inotify_init — an errno that the
taxonomy of the spec classifies as a resource error — and leaves no
partial state behind: the kernel state is exactly the initial one and no
descriptor is closed (nothing to close, nothing closed twice). -/
theorem c6_init_resource_failure (env : Env) (st : KState) (e : Nat)
    (hfail : env.initErrno = some e)
    (hres : e = EMFILE ∨ e = ENFILE ∨ e = ENOMEM) :
    c_init env st [] = ⟨none, some (.osError e none), st, Trace.nil⟩ ∧
    errnoKind e = .resource := by
  constructor
  · simp [c_init, parse_init, sys_inotify_init, hfail]
  · rcases hres with h | h | h <;> subst h <;> decide

/-- Witness for C6: descriptor-table exhaustion (EMFILE) on the sample
state. -/
theorem c6_init_resource_failure_witness :
    c_init exhaustedEnv sampleSt [] =
      ⟨none, some (.osError EMFILE none), sampleSt, Trace.nil⟩ ∧
    errnoKind EMFILE = .resource :=
  c6_init_resource_failure exhaustedEnv sampleSt EMFILE rfl (Or.inl rfl)


/-! ## Helper lemmas on the kernel state -/

theorem lookupInst_setInst (st : KState) (fd fd2 : Nat) (inst : KInstance) :
    lookupInst (setInst st fd inst) fd2 =
      if fd2 = fd then (lookupInst st fd).map (fun _ => inst)
      else lookupInst st fd2 := by
  unfold lookupInst setInst
  simp only [List.find?_map]
  by_cases h2 : fd2 = fd
  · subst h2
    have hp : ((fun p => decide (p.1 = fd2)) ∘
        (fun p : Nat × KInstance => if p.1 = fd2 then (fd2, inst) else p)) =
        fun p => decide (p.1 = fd2) := by
      funext p; by_cases hc : p.1 = fd2 <;> simp [hc]
    rw [hp, if_pos rfl]
    rcases hf : st.instances.find? (fun p => decide (p.1 = fd2)) with _ | p0
    · rw [hf]; simp
    · have hk : p0.1 = fd2 := by simpa using List.find?_some hf
      rw [hf]; simp [hk]
  · have hp : ((fun p => decide (p.1 = fd2)) ∘
        (fun p : Nat × KInstance => if p.1 = fd then (fd, inst) else p)) =
        fun p => decide (p.1 = fd2) := by
      funext p
      by_cases hc : p.1 = fd
      · simp [hc, Ne.symm h2, fun hh : fd = fd2 => h2 hh.symm]
      · simp [hc]
    rw [hp, if_neg h2]
    rcases hf : st.instances.find? (fun p => decide (p.1 = fd2)) with _ | p0
    · rw [hf]; simp
    · have hk : p0.1 = fd2 := by simpa using List.find?_some hf
      have hne : ¬ p0.1 = fd := by rw [hk]; exact h2
      rw [hf]; simp [hne]

theorem instFds_setInst (st : KState) (fd : Nat) (inst : KInstance) :
    instFds (setInst st fd inst) = instFds st := by
  unfold instFds setInst
  simp only [List.map_map]
  apply List.map_congr_left
  intro p _
  by_cases h : p.1 = fd <;> simp [h]

theorem watchesOf_setInst (st : KState) (fd fd2 : Nat) (inst i0 : KInstance)
    (h : lookupInst st fd = some i0) :
    watchesOf (setInst st fd inst) fd2 =
      if fd2 = fd then inst.watches else watchesOf st fd2 := by
  unfold watchesOf
  rw [lookupInst_setInst]
  by_cases h2 : fd2 = fd
  · subst h2; rw [if_pos rfl, if_pos rfl, h]; rfl
  · rw [if_neg h2, if_neg h2]

theorem find?_filter_key (l : List (Nat × KInstance)) (fd fd2 : Nat) :
    (l.filter (fun p => p.1 ≠ fd)).find? (fun p => p.1 = fd2) =
      if fd2 = fd then none else l.find? (fun p => p.1 = fd2) := by
  by_cases h2 : fd2 = fd
  · subst h2
    rw [if_pos rfl]
    rw [List.find?_eq_none]
    intro p hp
    have := (List.mem_filter.mp hp).2
    simpa using this
  · rw [if_neg h2]
    rw [List.find?_filter]
    apply congrArg (fun q => List.find? q l)
    funext p
    by_cases hb : p.1 = fd2
    · have : ¬ p.1 = fd := by rw [hb]; exact h2
      simp [hb, this, h2]
    · simp [hb]

theorem sys_add_error_state (env : Env) (st : KState) (fd : Int)
    (path : String) (mask : Nat) (e : Nat) (st2 : KState)
    (h : sys_inotify_add_watch env st fd path mask = (.error e, st2)) :
    st2 = st := by
  unfold sys_inotify_add_watch at h
  repeat' split at h
  all_goals simp_all

theorem sys_rm_error_state (st : KState) (fd : Int) (wd : Nat)
    (e : Nat) (st2 : KState)
    (h : sys_inotify_rm_watch st fd wd = (.error e, st2)) :
    st2 = st := by
  unfold sys_inotify_rm_watch at h
  repeat' split at h
  all_goals simp_all

theorem sys_add_ok_cases (env : Env) (st : KState) (fd : Int) (path : String)
    (mask wd : Nat) (st1 : KState)
    (h : sys_inotify_add_watch env st fd path mask = (.ok wd, st1)) :
    ¬ fd < 0 ∧ ∃ inst, lookupInst st fd.toNat = some inst ∧
      ((∃ w, inst.watches.find? (fun x => x.path = path) = some w ∧
          wd = w.wd ∧
          st1 = setInst st fd.toNat
            { watches := inst.watches.map (fun x =>
                if x.wd = w.wd then
                  { x with mask :=
                      if mask &&& IN_MASK_ADD ≠ 0 then
                        w.mask ||| (mask &&& IN_ALL_EVENTS)
                      else mask &&& IN_ALL_EVENTS }
                else x),
              nextWd := inst.nextWd }) ∨
       (inst.watches.find? (fun x => x.path = path) = none ∧
        wd = inst.nextWd ∧
        st1 = setInst st fd.toNat
          ⟨⟨inst.nextWd, path, mask &&& IN_ALL_EVENTS⟩ :: inst.watches,
           inst.nextWd + 1⟩)) := by
  unfold sys_inotify_add_watch at h
  split at h
  · exact absurd h (by simp)
  split at h
  · exact absurd h (by simp)
  next hfd =>
    split at h
    · exact absurd h (by simp)
    next inst hlook =>
      split at h
      · exact absurd h (by simp)
      split at h
      · exact absurd h (by simp)
      split at h
      next w hw =>
        have h1 := (Prod.mk.inj h).1
        have h2 := (Prod.mk.inj h).2
        exact ⟨hfd, inst, hlook, Or.inl ⟨w, hw, (Except.ok.inj h1).symm, h2.symm⟩⟩
      next hw =>
        split at h
        · exact absurd h (by simp)
        next hwe =>
          have h1 := (Prod.mk.inj h).1
          have h2 := (Prod.mk.inj h).2
          exact ⟨hfd, inst, hlook, Or.inr ⟨hw, (Except.ok.inj h1).symm, h2.symm⟩⟩

theorem sys_rm_found (st1 : KState) (fd : Int) (wd : Nat)
    (inst2 : KInstance) (x0 : Watch)
    (hfd : ¬ fd < 0) (hlook : lookupInst st1 fd.toNat = some inst2)
    (hfind : inst2.watches.find? (fun w => w.wd = wd) = some x0) :
    sys_inotify_rm_watch st1 fd wd =
      (.ok (), setInst st1 fd.toNat
        ⟨inst2.watches.filter (fun w => w.wd ≠ wd), inst2.nextWd⟩) := by
  simp [sys_inotify_rm_watch, hfd, hlook, hfind]

theorem rm_after_add (env : Env) (st : KState) (fd : Int) (path : String)
    (mask wd : Nat) (st1 : KState)
    (h : sys_inotify_add_watch env st fd path mask = (.ok wd, st1)) :
    instFds (sys_inotify_rm_watch st1 fd wd).2 = instFds st ∧
    ∀ fd2, ∀ x ∈ watchesOf (sys_inotify_rm_watch st1 fd wd).2 fd2,
      x ∈ watchesOf st fd2 := by
  obtain ⟨hfd, inst, hlook, hcase⟩ := sys_add_ok_cases env st fd path mask wd st1 h
  rcases hcase with ⟨w, hw, hwd, hst1⟩ | ⟨hw, hwd, hst1⟩
  · subst hwd
    set g : Watch → Watch := fun x =>
      if x.wd = w.wd then
        { x with mask :=
            if mask &&& IN_MASK_ADD ≠ 0 then
              w.mask ||| (mask &&& IN_ALL_EVENTS)
            else mask &&& IN_ALL_EVENTS }
      else x with hg
    have hlook1 : lookupInst st1 fd.toNat =
        some ⟨inst.watches.map g, inst.nextWd⟩ := by
      rw [hst1, lookupInst_setInst, if_pos rfl, hlook]; rfl
    have hwdpred : ((fun x : Watch => decide (x.wd = w.wd)) ∘ g) =
        fun x : Watch => decide (x.wd = w.wd) := by
      funext x; by_cases hx : x.wd = w.wd <;> simp [hg, hx]
    have hfind0 : (inst.watches.find? (fun x => x.wd = w.wd)).isSome := by
      rw [List.find?_isSome]
      exact ⟨w, List.mem_of_find?_eq_some hw, by simp⟩
    obtain ⟨x0, hx0⟩ := Option.isSome_iff_exists.mp hfind0
    have hfind : (inst.watches.map g).find? (fun x => x.wd = w.wd) =
        some (g x0) := by
      rw [List.find?_map, hwdpred, hx0]; rfl
    have hrm := sys_rm_found st1 fd w.wd ⟨inst.watches.map g, inst.nextWd⟩
      (g x0) hfd hlook1 hfind
    have hstate : (sys_inotify_rm_watch st1 fd w.wd).2 =
        setInst st1 fd.toNat
          ⟨(inst.watches.map g).filter (fun y => y.wd ≠ w.wd),
           inst.nextWd⟩ := by rw [hrm]
    constructor
    · rw [hstate, instFds_setInst, hst1, instFds_setInst]
    · intro fd2 x hx
      rw [hstate, watchesOf_setInst _ _ _ _ _ hlook1] at hx
      by_cases h2 : fd2 = fd.toNat
      · rw [if_pos h2] at hx
        have hx1 := List.mem_filter.mp hx
        obtain ⟨x1, hx1mem, hx1eq⟩ := List.mem_map.mp hx1.1
        have hxwd : ¬ x.wd = w.wd := by simpa using hx1.2
        have hxx1 : x = x1 := by
          by_cases hc : x1.wd = w.wd
          · exfalso; apply hxwd; rw [← hx1eq]; simp [hg, hc]
          · rw [← hx1eq]; simp [hg, hc]
        have hwst : watchesOf st fd2 = inst.watches := by
          rw [h2]; simp [watchesOf, hlook]
        rw [hwst, hxx1]; exact hx1mem
      · rw [if_neg h2] at hx
        rw [hst1, watchesOf_setInst _ _ _ _ _ hlook, if_neg h2] at hx
        exact hx
  · subst hwd
    have hlook1 : lookupInst st1 fd.toNat =
        some ⟨⟨inst.nextWd, path, mask &&& IN_ALL_EVENTS⟩ :: inst.watches,
              inst.nextWd + 1⟩ := by
      rw [hst1, lookupInst_setInst, if_pos rfl, hlook]; rfl
    have hfind : ((⟨inst.nextWd, path, mask &&& IN_ALL_EVENTS⟩ :: inst.watches :
        List Watch).find? (fun x => x.wd = inst.nextWd)) =
        some ⟨inst.nextWd, path, mask &&& IN_ALL_EVENTS⟩ := by
      apply List.find?_cons_of_pos; simp
    have hrm := sys_rm_found st1 fd inst.nextWd _ _ hfd hlook1 hfind
    have hstate : (sys_inotify_rm_watch st1 fd inst.nextWd).2 =
        setInst st1 fd.toNat
          ⟨((⟨inst.nextWd, path, mask &&& IN_ALL_EVENTS⟩ : Watch) ::
              inst.watches).filter (fun y => y.wd ≠ inst.nextWd),
           inst.nextWd + 1⟩ := by rw [hrm]
    constructor
    · rw [hstate, instFds_setInst, hst1, instFds_setInst]
    · intro fd2 x hx
      rw [hstate, watchesOf_setInst _ _ _ _ _ hlook1] at hx
      by_cases h2 : fd2 = fd.toNat
      · rw [if_pos h2] at hx
        simp only [List.filter_cons] at hx
        have hx1 : x ∈ inst.watches.filter (fun y => y.wd ≠ inst.nextWd) := by
          simpa using hx
        have hwst : watchesOf st fd2 = inst.watches := by
          rw [h2]; simp [watchesOf, hlook]
        rw [hwst]; exact (List.mem_filter.mp hx1).1
      · rw [if_neg h2] at hx
        rw [hst1, watchesOf_setInst _ _ _ _ _ hlook, if_neg h2] at hx
        exact hx

theorem sys_init_error_state (env : Env) (st : KState) (e : Nat) (st1 : KState)
    (h : sys_inotify_init env st = (.error e, st1)) : st1 = st := by
  unfold sys_inotify_init at h
  split at h
  · exact ((Prod.mk.inj h).2).symm
  · exact absurd (Prod.mk.inj h).1 (by simp)

theorem sys_init_ok (env : Env) (st : KState) (fd : Nat) (st1 : KState)
    (h : sys_inotify_init env st = (.ok fd, st1)) :
    fd = st.nextFd ∧
    st1 = ⟨(st.nextFd, ⟨[], 1⟩) :: st.instances, st.nextFd + 1⟩ := by
  unfold sys_inotify_init at h
  split at h
  · exact absurd (Prod.mk.inj h).1 (by simp)
  · exact ⟨(Except.ok.inj (Prod.mk.inj h).1).symm, ((Prod.mk.inj h).2).symm⟩

/-- C5: on every failing exit path of init and add_watch, the partially
acquired kernel resource is released: whenever the call ends with an
exception, every instance descriptor still open afterwards was open
before, and every watch still registered afterwards was registered before
(the bail path of init closes the freshly allocated descriptor, the bail
path of add_watch removes the just-registered watch). -/
theorem c5_cleanup (env : Env) (st : KState) (args : List PyValue) :
    ((c_init env st args).err ≠ none →
      instFds (c_init env st args).state ⊆ instFds st ∧
      ∀ fd2, ∀ x ∈ watchesOf (c_init env st args).state fd2,
        x ∈ watchesOf st fd2) ∧
    ((c_add_watch env st args).err ≠ none →
      instFds (c_add_watch env st args).state ⊆ instFds st ∧
      ∀ fd2, ∀ x ∈ watchesOf (c_add_watch env st args).state fd2,
        x ∈ watchesOf st fd2) := by
  constructor
  · unfold c_init
    split
    · intro _
      exact ⟨fun a ha => ha, fun fd2 x hx => hx⟩
    · split
      next e st1 heq =>
        intro _
        rw [sys_init_error_state env st e st1 heq]
        exact ⟨fun a ha => ha, fun fd2 x hx => hx⟩
      next fd st1 heq =>
        split
        · intro _
          obtain ⟨hfd, hst1⟩ := sys_init_ok env st fd st1 heq
          subst hfd
          rw [hst1]
          have hclose : sys_close st.nextFd
              (⟨(st.nextFd, ⟨[], 1⟩) :: st.instances, st.nextFd + 1⟩ :
                KState) =
              ⟨st.instances.filter (fun p => p.1 ≠ st.nextFd),
               st.nextFd + 1⟩ := by
            simp [sys_close]
          rw [hclose]
          constructor
          · intro a ha
            unfold instFds at ha ⊢
            obtain ⟨p, hp, hpa⟩ := List.mem_map.mp ha
            exact List.mem_map.mpr ⟨p, (List.filter_sublist _).subset hp, hpa⟩
          · intro fd2 x hx
            unfold watchesOf lookupInst at hx ⊢
            rw [find?_filter_key] at hx
            by_cases h2 : fd2 = st.nextFd
            · rw [if_pos h2] at hx; simp at hx
            · rw [if_neg h2] at hx; exact hx
        · intro herr
          exact absurd rfl herr
  · unfold c_add_watch
    split
    · intro _
      exact ⟨fun a ha => ha, fun fd2 x hx => hx⟩
    · split
      next e st1 heq =>
        intro _
        rw [sys_add_error_state env st _ _ _ _ _ heq]
        exact ⟨fun a ha => ha, fun fd2 x hx => hx⟩
      next wd st1 heq =>
        split
        · intro _
          have hr := rm_after_add env st _ _ _ wd st1 heq
          refine ⟨?_, hr.2⟩
          rw [hr.1]
          exact fun a ha => ha
        · intro herr
          exact absurd rfl herr

/-- Witness for C5: with boxing failing, init allocates descriptor 4 and
closes it again, add_watch registers a watch on the open instance 3 and
removes it again; in both cases the failing call leaves no new kernel
resource behind. -/
theorem c5_cleanup_witness :
    (c_init boxFailEnv sampleSt []).err ≠ none ∧
    (instFds (c_init boxFailEnv sampleSt []).state ⊆ instFds sampleSt ∧
     ∀ fd2, ∀ x ∈ watchesOf (c_init boxFailEnv sampleSt []).state fd2,
       x ∈ watchesOf sampleSt fd2) ∧
    (c_add_watch boxFailEnv sampleSt [.int 3, .str "/b", .int 2]).err ≠ none ∧
    (instFds (c_add_watch boxFailEnv sampleSt
        [.int 3, .str "/b", .int 2]).state ⊆ instFds sampleSt ∧
     ∀ fd2, ∀ x ∈ watchesOf (c_add_watch boxFailEnv sampleSt
        [.int 3, .str "/b", .int 2]).state fd2,
       x ∈ watchesOf sampleSt fd2) :=
  ⟨by decide, (c5_cleanup boxFailEnv sampleSt []).1 (by decide),
   by decide,
   (c5_cleanup boxFailEnv sampleSt [.int 3, .str "/b", .int 2]).2 (by decide)⟩

/-- C2 counterexample: the module exports no close operation; the methods
table contains only init, add_watch and remove_watch. -/
theorem c2_no_close_exported : "close" ∉ methodNames := by decide

/-- C2 amended: the external interface consists exactly of init,
add_watch and remove_watch — there is no close operation, so an instance
is torn down by the caller closing its descriptor outside the module —
and once a descriptor is no longer an open instance, add_watch and
remove_watch on it fail cleanly with OSError(EBADF), returning NULL with
the exception set and leaving the kernel state unchanged. -/
theorem c2_amended :
    (methodNames = ["init", "add_watch", "remove_watch"] ∧
     "close" ∉ methodNames) ∧
    ∀ (env : Env) (st : KState) (fd m wd : Int) (path : String),
      lookupInst st fd.toNat = none →
      (((m % (2 ^ 32 : Int)).toNat &&& IN_ALL_EVENTS ≠ 0 →
        c_add_watch env st [.int fd, .str path, .int m] =
          ⟨none, some (.osError EBADF (some path)), st,
           ⟨[], [], [(fd, path, (m % (2 ^ 32 : Int)).toNat)], 0⟩⟩) ∧
       c_remove_watch st [.int fd, .int wd] =
         ⟨none, some (.osError EBADF none), st,
          ⟨[], [(fd, (wd % (2 ^ 32 : Int)).toNat)], [], 0⟩⟩) := by
  refine ⟨⟨rfl, by decide⟩, ?_⟩
  intro env st fd m wd path hlook
  constructor
  · intro hmask
    have hsys : sys_inotify_add_watch env st fd path
        ((m % (2 ^ 32 : Int)).toNat) = (.error EBADF, st) := by
      unfold sys_inotify_add_watch
      rw [if_neg hmask]
      by_cases hfd : fd < 0
      · rw [if_pos hfd]
      · rw [if_neg hfd, hlook]
    simp only [c_add_watch, parse_add_watch]
    rw [hsys]
  · have hsys : sys_inotify_rm_watch st fd ((wd % (2 ^ 32 : Int)).toNat) =
        (.error EBADF, st) := by
      unfold sys_inotify_rm_watch
      by_cases hfd : fd < 0
      · rw [if_pos hfd]
      · rw [if_neg hfd, hlook]
    simp only [c_remove_watch, parse_remove_watch]
    rw [hsys]

/-- Witness for C2: on the empty kernel state descriptor 5 is not open;
add_watch and remove_watch on it fail with EBADF and change nothing. -/
theorem c2_amended_witness :
    lookupInst emptySt (5 : Int).toNat = none ∧
    ((5 % (2 ^ 32 : Int)).toNat &&& IN_ALL_EVENTS ≠ 0 ∨ True) ∧
    c_add_watch sampleEnv emptySt [.int 5, .str "/x", .int 2] =
      ⟨none, some (.osError EBADF (some "/x")), emptySt,
       ⟨[], [], [(5, "/x", (2 % (2 ^ 32 : Int)).toNat)], 0⟩⟩ ∧
    c_remove_watch emptySt [.int 5, .int 1] =
      ⟨none, some (.osError EBADF none), emptySt,
       ⟨[], [(5, (1 % (2 ^ 32 : Int)).toNat)], [], 0⟩⟩ :=
  ⟨rfl, Or.inr trivial,
   ((c2_amended.2 sampleEnv emptySt 5 2 1 "/x" rfl).1 (by decide)),
   (c2_amended.2 sampleEnv emptySt 5 2 1 "/x" rfl).2⟩

/-- C3 counterexample: a failing remove_watch produces an error that does
not carry the watch identifier: the C code uses PyErr_SetFromErrno, which
attaches no context, so the context slot of the OSError is none (here the
failing removal of watch 1 on the unopened descriptor 3; the claim
requires the identifier 1 to be attached). -/
theorem c3_remove_error_lacks_wd :
    (c_remove_watch emptySt [.int 3, .int 1]).err =
      some (.osError EBADF none) := by decide

/-- C3 amended: every failing operation raises exactly one structured
error carrying the errno of the syscall; add_watch failures additionally
carry the path (PyErr_SetFromErrnoWithFilename), while init and
remove_watch failures carry the errno only — no watch identifier is
attached to a remove_watch failure. -/
theorem c3_amended (env : Env) (st : KState) :
    (∀ (args : List PyValue) (fd : Int) (path : String) (mask e : Nat)
       (st2 : KState),
       parse_add_watch args = some (fd, path, mask) →
       sys_inotify_add_watch env st fd path mask = (.error e, st2) →
       c_add_watch env st args =
         ⟨none, some (.osError e (some path)), st2,
          ⟨[], [], [(fd, path, mask)], 0⟩⟩) ∧
    (∀ e : Nat, env.initErrno = some e →
       c_init env st [] = ⟨none, some (.osError e none), st, Trace.nil⟩) ∧
    (∀ (args : List PyValue) (fd : Int) (wd e : Nat) (st2 : KState),
       parse_remove_watch args = some (fd, wd) →
       sys_inotify_rm_watch st fd wd = (.error e, st2) →
       c_remove_watch st args =
         ⟨none, some (.osError e none), st2, ⟨[], [(fd, wd)], [], 0⟩⟩) := by
  refine ⟨?_, ?_, ?_⟩
  · intro args fd path mask e st2 hp hsys
    simp only [c_add_watch, hp, hsys]
  · intro e he
    simp [c_init, parse_init, sys_inotify_init, he]
  · intro args fd wd e st2 hp hsys
    simp only [c_remove_watch, hp, hsys]

/-- Witness for C3 at concrete failing calls: add_watch and remove_watch
on the unopened descriptor 3 (EBADF) and init under descriptor
exhaustion (EMFILE). -/
theorem c3_amended_witness :
    parse_add_watch [.int 3, .str "/x", .int 2] = some (3, "/x", 2) ∧
    sys_inotify_add_watch exhaustedEnv emptySt 3 "/x" 2 =
      (.error EBADF, emptySt) ∧
    c_add_watch exhaustedEnv emptySt [.int 3, .str "/x", .int 2] =
      ⟨none, some (.osError EBADF (some "/x")), emptySt,
       ⟨[], [], [(3, "/x", 2)], 0⟩⟩ ∧
    exhaustedEnv.initErrno = some EMFILE ∧
    c_init exhaustedEnv emptySt [] =
      ⟨none, some (.osError EMFILE none), emptySt, Trace.nil⟩ ∧
    parse_remove_watch [.int 3, .int 1] = some (3, 1) ∧
    sys_inotify_rm_watch emptySt 3 1 = (.error EBADF, emptySt) ∧
    c_remove_watch emptySt [.int 3, .int 1] =
      ⟨none, some (.osError EBADF none), emptySt, ⟨[], [(3, 1)], [], 0⟩⟩ :=
  ⟨by decide, rfl,
   (c3_amended exhaustedEnv emptySt).1 [.int 3, .str "/x", .int 2] 3 "/x" 2
     EBADF emptySt (by decide) rfl,
   rfl,
   (c3_amended exhaustedEnv emptySt).2.1 EMFILE rfl,
   by decide, rfl,
   (c3_amended exhaustedEnv emptySt).2.2 [.int 3, .int 1] 3 1 EBADF emptySt
     (by decide) rfl⟩

/-- C4 counterexample: add_watch takes no additive flag: the C wrapper
parses exactly (fd, path, mask) with format "isI", so passing a fourth
additive argument makes PyArg_ParseTuple fail with a TypeError and
nothing is registered. -/
theorem c4_no_additive_param :
    c_add_watch sampleEnv sampleSt [.int 3, .str "/tmp/x", .int 2, .int 1] =
      ⟨none, some .typeError, sampleSt, Trace.nil⟩ := by decide

/-- C4 amended: additive combination is selected through the IN_MASK_ADD
bit of the mask argument, not through a separate parameter: re-registering
a watched path with a mask not containing IN_MASK_ADD replaces the
effective mask with the requestable-event bits of the new mask, and
re-registering with IN_MASK_ADD unions them into the existing mask. -/
theorem c4_amended (env : Env) (st : KState) (fd : Int) (path : String)
    (m : Int) (inst : KInstance) (w : Watch)
    (hfd : ¬ fd < 0)
    (hinst : lookupInst st fd.toNat = some inst)
    (hw : inst.watches.find? (fun x => x.path = path) = some w)
    (hex : env.pathExists path = true)
    (hperm : env.pathPermitted path = true)
    (hbox : env.boxFails = false)
    (hmask : (m % (2 ^ 32 : Int)).toNat &&& IN_ALL_EVENTS ≠ 0) :
    (c_add_watch env st [.int fd, .str path, .int m]).val =
      some (.int w.wd) ∧
    (c_add_watch env st [.int fd, .str path, .int m]).err = none ∧
    effMask (c_add_watch env st [.int fd, .str path, .int m]).state
        fd.toNat w.wd =
      some (if (m % (2 ^ 32 : Int)).toNat &&& IN_MASK_ADD ≠ 0 then
              w.mask ||| ((m % (2 ^ 32 : Int)).toNat &&& IN_ALL_EVENTS)
            else (m % (2 ^ 32 : Int)).toNat &&& IN_ALL_EVENTS) := by
  have hsys : sys_inotify_add_watch env st fd path
      ((m % (2 ^ 32 : Int)).toNat) =
      (.ok w.wd, setInst st fd.toNat
        ⟨inst.watches.map (fun x =>
            if x.wd = w.wd then
              { x with mask :=
                  if (m % (2 ^ 32 : Int)).toNat &&& IN_MASK_ADD ≠ 0 then
                    w.mask ||| ((m % (2 ^ 32 : Int)).toNat &&& IN_ALL_EVENTS)
                  else (m % (2 ^ 32 : Int)).toNat &&& IN_ALL_EVENTS }
            else x),
          inst.nextWd⟩) := by
    simp [sys_inotify_add_watch, hfd, hinst, hex, hperm, hw]
    simpa using hmask
  have hred : c_add_watch env st [.int fd, .str path, .int m] =
      ⟨some (.int w.wd), none, setInst st fd.toNat
        ⟨inst.watches.map (fun x =>
            if x.wd = w.wd then
              { x with mask :=
                  if (m % (2 ^ 32 : Int)).toNat &&& IN_MASK_ADD ≠ 0 then
                    w.mask ||| ((m % (2 ^ 32 : Int)).toNat &&& IN_ALL_EVENTS)
                  else (m % (2 ^ 32 : Int)).toNat &&& IN_ALL_EVENTS }
            else x),
          inst.nextWd⟩,
        ⟨[], [], [(fd, path, (m % (2 ^ 32 : Int)).toNat)], 0⟩⟩ := by
    simp only [c_add_watch, parse_add_watch]
    rw [hsys, hbox]
    rfl
  rw [hred]
  refine ⟨rfl, rfl, ?_⟩
  unfold effMask
  rw [watchesOf_setInst _ _ _ _ _ hinst, if_pos rfl]
  rw [List.find?_map]
  have hwdpred : ((fun x : Watch => decide (x.wd = w.wd)) ∘ (fun x =>
      if x.wd = w.wd then
        { x with mask :=
            if (m % (2 ^ 32 : Int)).toNat &&& IN_MASK_ADD ≠ 0 then
              w.mask ||| ((m % (2 ^ 32 : Int)).toNat &&& IN_ALL_EVENTS)
            else (m % (2 ^ 32 : Int)).toNat &&& IN_ALL_EVENTS }
      else x)) = fun x : Watch => decide (x.wd = w.wd) := by
    funext x
    by_cases hx : x.wd = w.wd <;> simp [hx]
  rw [hwdpred]
  have hfind0 : (inst.watches.find? (fun x => x.wd = w.wd)).isSome := by
    rw [List.find?_isSome]
    exact ⟨w, List.mem_of_find?_eq_some hw, by simp⟩
  obtain ⟨x0, hx0⟩ := Option.isSome_iff_exists.mp hfind0
  have hx0wd : x0.wd = w.wd := by simpa using List.find?_some hx0
  rw [hx0]
  simp [hx0wd]

/-- Witness for C4 with the scenario of the spec: the instance at
descriptor 3 already watches /a with mask IN_MODIFY; re-registering with
IN_ATTRIB alone replaces the effective mask with IN_ATTRIB, while
re-registering with IN_ATTRIB plus IN_MASK_ADD yields the union
IN_MODIFY plus IN_ATTRIB. -/
theorem c4_amended_witness :
    lookupInst sampleSt (3 : Int).toNat =
      some ⟨[⟨1, "/a", IN_MODIFY⟩], 2⟩ ∧
    (([⟨1, "/a", IN_MODIFY⟩] : List Watch).find?
        (fun x => x.path = "/a") = some ⟨1, "/a", IN_MODIFY⟩) ∧
    (c_add_watch sampleEnv sampleSt [.int 3, .str "/a", .int 4]).val =
      some (.int 1) ∧
    effMask (c_add_watch sampleEnv sampleSt
        [.int 3, .str "/a", .int 4]).state 3 1 = some IN_ATTRIB ∧
    effMask (c_add_watch sampleEnv sampleSt
        [.int 3, .str "/a", .int 0x20000004]).state 3 1 =
      some (IN_MODIFY ||| IN_ATTRIB) :=
  ⟨rfl, rfl,
   (c4_amended sampleEnv sampleSt 3 "/a" 4 ⟨[⟨1, "/a", IN_MODIFY⟩], 2⟩
      ⟨1, "/a", IN_MODIFY⟩ (by decide) rfl rfl rfl rfl rfl (by decide)).1,
   (c4_amended sampleEnv sampleSt 3 "/a" 4 ⟨[⟨1, "/a", IN_MODIFY⟩], 2⟩
      ⟨1, "/a", IN_MODIFY⟩ (by decide) rfl rfl rfl rfl rfl (by decide)).2.2,
   (c4_amended sampleEnv sampleSt 3 "/a" 0x20000004
      ⟨[⟨1, "/a", IN_MODIFY⟩], 2⟩ ⟨1, "/a", IN_MODIFY⟩
      (by decide) rfl rfl rfl rfl rfl (by decide)).2.2⟩

/-- C7: the wrapper performs no mask validation or rewriting of its own:
a mask with no recognized requestable event flag (including the empty
mask) makes the registration fail with OSError(EINVAL) — the
InvalidArgumentError of the taxonomy — carrying the path and changing
nothing; the syscall receives exactly the mask of the caller
(never silently reinterpreted); masks agreeing on the recognized event
bits and on the IN_MASK_ADD modifier produce identical kernel outcomes,
so unrecognized bits are ignored consistently. -/
theorem c7_mask_policy (env : Env) (st : KState) (fd : Int)
    (path : String) (m : Int) :
    ((m % (2 ^ 32 : Int)).toNat &&& IN_ALL_EVENTS = 0 →
      c_add_watch env st [.int fd, .str path, .int m] =
        ⟨none, some (.osError EINVAL (some path)), st,
         ⟨[], [], [(fd, path, (m % (2 ^ 32 : Int)).toNat)], 0⟩⟩ ∧
      errnoKind EINVAL = .invalidArgument) ∧
    (c_add_watch env st [.int fd, .str path, .int m]).trace.addCalls =
      [(fd, path, (m % (2 ^ 32 : Int)).toNat)] ∧
    (∀ mask2 : Nat,
      (m % (2 ^ 32 : Int)).toNat &&& IN_ALL_EVENTS =
        mask2 &&& IN_ALL_EVENTS →
      (m % (2 ^ 32 : Int)).toNat &&& IN_MASK_ADD = mask2 &&& IN_MASK_ADD →
      sys_inotify_add_watch env st fd path ((m % (2 ^ 32 : Int)).toNat) =
        sys_inotify_add_watch env st fd path mask2) := by
  refine ⟨?_, ?_, ?_⟩
  · intro hm
    have hsys : sys_inotify_add_watch env st fd path
        ((m % (2 ^ 32 : Int)).toNat) = (.error EINVAL, st) := by
      unfold sys_inotify_add_watch
      rw [if_pos hm]
    constructor
    · simp only [c_add_watch, parse_add_watch]
      rw [hsys]
    · decide
  · simp only [c_add_watch, parse_add_watch]
    rcases hs : sys_inotify_add_watch env st fd path
      ((m % (2 ^ 32 : Int)).toNat) with ⟨r, st1⟩
    cases r
    · rfl
    · by_cases hb : env.boxFails = true
      · rw [hb]; rfl
      · rw [Bool.not_eq_true] at hb
        rw [hb]; rfl
  · intro mask2 h1 h2
    unfold sys_inotify_add_watch
    simp only [h1, h2]

/-- Witness for C7: the mask 0x10000000 has no recognized event flag and
is rejected with EINVAL; a well-formed call records exactly the caller
mask in the syscall trace; the unrecognized bit 0x10000 on top of
IN_MODIFY changes nothing in the kernel outcome. -/
theorem c7_mask_policy_witness :
    ((0x10000000 % (2 ^ 32 : Int)).toNat &&& IN_ALL_EVENTS = 0) ∧
    c_add_watch sampleEnv sampleSt [.int 3, .str "/b", .int 0x10000000] =
      ⟨none, some (.osError EINVAL (some "/b")), sampleSt,
       ⟨[], [], [(3, "/b", (0x10000000 % (2 ^ 32 : Int)).toNat)], 0⟩⟩ ∧
    (c_add_watch sampleEnv sampleSt
        [.int 3, .str "/b", .int 2]).trace.addCalls =
      [(3, "/b", (2 % (2 ^ 32 : Int)).toNat)] ∧
    sys_inotify_add_watch sampleEnv sampleSt 3 "/b"
        ((0x10002 % (2 ^ 32 : Int)).toNat) =
      sys_inotify_add_watch sampleEnv sampleSt 3 "/b" 2 :=
  ⟨by decide,
   ((c7_mask_policy sampleEnv sampleSt 3 "/b" 0x10000000).1 (by decide)).1,
   (c7_mask_policy sampleEnv sampleSt 3 "/b" 2).2.1,
   (c7_mask_policy sampleEnv sampleSt 3 "/b" 0x10002).2.2 2
     (by decide) (by decide)⟩

/-- C10: for init and add_watch the returned object is non-NULL exactly
when no exception is set, and a returned object is always the boxed
nonnegative integer produced by the underlying syscall, unchanged: the
descriptor returned by inotify_init, respectively the watch descriptor
returned by inotify_add_watch. -/
theorem c10_value_iff_no_error (env : Env) (st : KState)
    (args : List PyValue) :
    ((c_init env st args).val ≠ none ↔ (c_init env st args).err = none) ∧
    (∀ v, (c_init env st args).val = some v →
       ∃ fd : Nat, v = .int fd ∧ (sys_inotify_init env st).1 = .ok fd) ∧
    ((c_add_watch env st args).val ≠ none ↔
      (c_add_watch env st args).err = none) ∧
    (∀ v, (c_add_watch env st args).val = some v →
       ∃ (fd : Int) (path : String) (mask wd : Nat),
         parse_add_watch args = some (fd, path, mask) ∧
         v = .int wd ∧
         (sys_inotify_add_watch env st fd path mask).1 = .ok wd) := by
  refine ⟨?_, ?_, ?_, ?_⟩
  · unfold c_init
    split
    · simp
    · split
      · simp
      · split <;> simp
  · intro v hv
    unfold c_init at hv
    split at hv
    · exact absurd hv (by simp)
    · split at hv
      next e st1 heq => exact absurd hv (by simp)
      next fd st1 heq =>
        split at hv
        · exact absurd hv (by simp)
        · exact ⟨fd, (Option.some.inj hv).symm, by rw [heq]⟩
  · unfold c_add_watch
    split
    · simp
    · split
      · simp
      · split <;> simp
  · intro v hv
    unfold c_add_watch at hv
    split at hv
    · exact absurd hv (by simp)
    next fd path mask heqp =>
      split at hv
      next e st1 heq => exact absurd hv (by simp)
      next wd st1 heq =>
        split at hv
        · exact absurd hv (by simp)
        · exact ⟨fd, path, mask, wd, heqp, (Option.some.inj hv).symm,
            by rw [heq]⟩

/-- Witness for C10: on the benign environment init returns the boxed
fresh descriptor 4 of the sample state and add_watch returns the boxed
fresh watch descriptor 2 of instance 3. -/
theorem c10_value_iff_no_error_witness :
    (c_init sampleEnv sampleSt []).val = some (.int 4) ∧
    (∃ fd : Nat, (PyValue.int 4) = .int fd ∧
       (sys_inotify_init sampleEnv sampleSt).1 = .ok fd) ∧
    (c_add_watch sampleEnv sampleSt [.int 3, .str "/b", .int 2]).val =
      some (.int 2) ∧
    (∃ (fd : Int) (path : String) (mask wd : Nat),
       parse_add_watch [.int 3, .str "/b", .int 2] =
         some (fd, path, mask) ∧
       (PyValue.int 2) = .int wd ∧
       (sys_inotify_add_watch sampleEnv sampleSt fd path mask).1 =
         .ok wd) :=
  ⟨rfl,
   (c10_value_iff_no_error sampleEnv sampleSt []).2.1 (.int 4) rfl,
   rfl,
   (c10_value_iff_no_error sampleEnv sampleSt
      [.int 3, .str "/b", .int 2]).2.2.2 (.int 2) rfl⟩

end Inotify
